import Mathlib

/-!
Shallow embedding of the credential-and-connection resolution pipeline of the
azure-cosmosdb-ads-extension repository (src/appContext.ts and
src/Services/AbstractArmService.ts), together with theorems settling the
frozen claims about it.

Conventions of the embedding:
* JavaScript `undefined` is `Option.none`; JS string falsiness (`!s` true for
  `undefined` and for `""`) is modelled explicitly where the source tests it.
* Remote calls are modelled by an environment record (`ArmEnv`) holding the
  value each call would produce, and every embedded function returns, next to
  its result, the list of external `Effect`s it performed, in order.
* A thrown JS `Error` is `Except.error` of an `ArmError` naming the message;
  an unhandled TypeError (reading a property of `undefined`) is the dedicated
  `ArmError.jsTypeError`.
-/

/-- Errors thrown by the pipeline, one constructor per distinct message in the
source (`localize` keys), plus `jsTypeError` for an unhandled JS TypeError. -/
inductive ArmError where
  | noAzureAccountFound
  | failRetrieveArmToken
  | failRetrieveArmEndpoint
  | azureResourceNotFound
  | noConnectionStringsFound
  | missingConnectionString
  | jsTypeError
deriving DecidableEq, Repr

/-- External interactions performed by the pipeline, recorded in order. -/
inductive Effect where
  | getAllAccounts
  | getSecurityToken
  | resourceGraphQuery
  | newCosmosDBManagementClient
  | listConnectionStrings
  | showQuickPick
deriving DecidableEq, Repr

/-- `azdata.Account`, reduced to the field the pipeline reads:
`properties?.providerSettings?.settings?.armResource?.endpoint`. -/
structure Account where
  armEndpoint : Option String
deriving DecidableEq, Repr

/-- Result of `azdata.accounts.getAccountSecurityToken`. -/
structure Token where
  token : String
  tokenType : Option String
deriving DecidableEq, Repr

/-- One row of the resource-graph query result (`result.data`). -/
structure LocatorRow where
  subscriptionId : String
  id : String
deriving DecidableEq, Repr

/-- `DatabaseAccountConnectionString` from the ARM SDK: both fields optional. -/
structure DatabaseAccountConnectionString where
  description : Option String
  connectionString : Option String
deriving DecidableEq, Repr

/-- `ConnectionStringPick` = `DatabaseAccountConnectionString & vscode.QuickPickItem`
as built by the `.map` in `retrieveConnectionStringFromArm`. -/
structure ConnectionStringPick where
  connectionString : Option String
  label : String
  description : Option String
  picked : Bool
deriving DecidableEq, Repr

/-- The `CosmosDBManagementClient` constructor call, reduced to its data. -/
structure CosmosDBManagementClient where
  subscriptionId : Option String
  baseUri : String
deriving DecidableEq, Repr

/-- Environment supplying the value of each remote call of one pipeline run. -/
structure ArmEnv where
  /-- Result of filtering `getAllAccounts()` by the requested account id
  (`none` when no account matches). -/
  account : Option Account
  /-- Result of `getAccountSecurityToken` (`none` when it returns undefined). -/
  securityToken : Option Token
  /-- `result.data` of the resource-graph discovery query. -/
  locatorRows : List LocatorRow
  /-- Response of `client.databaseAccounts.listConnectionStrings`
  (`none` when the `connectionStrings` field is absent). -/
  connectionStrings : Option (List DatabaseAccountConnectionString)
deriving DecidableEq, Repr

/-- `retrieveAzureAccount` (appContext.ts lines 422-431): filter all accounts
by id, throw `noAzureAccountFound` when fewer than one matches. -/
def retrieveAzureAccount (env : ArmEnv) : Except ArmError Account × List Effect :=
  match env.account with
  | some a => (Except.ok a, [Effect.getAllAccounts])
  | none => (Except.error ArmError.noAzureAccountFound, [Effect.getAllAccounts])

/-- `retrieveAzureToken` (appContext.ts lines 433-452): resolve the account,
ask the host for a security token, throw `failRetrieveArmToken` if absent. -/
def retrieveAzureToken (env : ArmEnv) : Except ArmError Token × List Effect :=
  match retrieveAzureAccount env with
  | (Except.error e, tr) => (Except.error e, tr)
  | (Except.ok _a, tr) =>
    match env.securityToken with
    | some t => (Except.ok t, tr ++ [Effect.getSecurityToken])
    | none => (Except.error ArmError.failRetrieveArmToken, tr ++ [Effect.getSecurityToken])

/-- JS `String.prototype.split` with a single-character separator, on the
character list: splitting the empty string gives `[""]`, separators at either
end produce empty segments, exactly as in JS. -/
def jsSplitChar (sep : Char) : List Char → List (List Char)
  | [] => [[]]
  | c :: rest =>
    match jsSplitChar sep rest with
    | [] => if c = sep then [[], []] else [[c]]
    | seg :: segs => if c = sep then [] :: seg :: segs else (c :: seg) :: segs

/-- JS `s.split(sep)` for a one-character separator string, as used by the
source with separator `"/"`. -/
def jsSplit (s : String) (sep : Char) : List String :=
  (jsSplitChar sep s.data).map List.asString

/-- Result record of `parsedAzureResourceId`: each field is the JS array
element at a fixed index, hence `Option` (undefined past the end). -/
structure ParsedAzureResourceId where
  subscriptionId : Option String
  resourceGroup : Option String
  dbAccountName : Option String
deriving DecidableEq, Repr

/-- `parsedAzureResourceId` (appContext.ts lines 454-464): split on `/` and
read indices 2, 4, 8. The source carries a `TODO Add error handling` comment
and never throws: out-of-range indices silently give `undefined`. -/
def parsedAzureResourceId (azureResourceId : String) : ParsedAzureResourceId :=
  let parts := jsSplit azureResourceId '/'
  { subscriptionId := parts.get? 2
    resourceGroup := parts.get? 4
    dbAccountName := parts.get? 8 }

/-- Decidable equality for `Except`, so results evaluate with `decide`. -/
instance {ε α : Type} [DecidableEq ε] [DecidableEq α] : DecidableEq (Except ε α) :=
  fun x y =>
    match x, y with
    | Except.error a, Except.error b =>
      if h : a = b then Decidable.isTrue (congrArg Except.error h)
      else Decidable.isFalse (fun hc => h (Except.error.inj hc))
    | Except.ok a, Except.ok b =>
      if h : a = b then Decidable.isTrue (congrArg Except.ok h)
      else Decidable.isFalse (fun hc => h (Except.ok.inj hc))
    | Except.error _, Except.ok _ => Decidable.isFalse (fun hc => Except.noConfusion hc)
    | Except.ok _, Except.error _ => Decidable.isFalse (fun hc => Except.noConfusion hc)

/-- `retrieveResourceInfofromArm` (appContext.ts lines 740-758): run the
resource-graph query and return `result.data[0]`, which may be undefined. -/
def retrieveResourceInfofromArm (env : ArmEnv) : Option LocatorRow × List Effect :=
  (env.locatorRows.head?, [Effect.resourceGraphQuery])

/-- `retrieveResourceId` (appContext.ts lines 474-493): when the supplied
`azureResourceId` is falsy (absent, modelled as `""`), acquire a token and run
the locator, throwing `azureResourceNotFound` on zero rows; otherwise return
the supplied id unchanged with no remote call. -/
def retrieveResourceId (env : ArmEnv) (azureResourceId : String) :
    Except ArmError String × List Effect :=
  if azureResourceId = "" then
    match retrieveAzureToken env with
    | (Except.error e, tr) => (Except.error e, tr)
    | (Except.ok _t, tr) =>
      match retrieveResourceInfofromArm env with
      | (none, tr2) => (Except.error ArmError.azureResourceNotFound, tr ++ tr2)
      | (some row, tr2) => (Except.ok row.id, tr ++ tr2)
  else
    (Except.ok azureResourceId, [])

/-- `createArmClient` (appContext.ts lines 495-523): account, ARM endpoint
(falsy check covers undefined and empty string), token, locator only when the
resource id is falsy, then construct the management client. -/
def createArmClient (env : ArmEnv) (azureResourceId : String) :
    Except ArmError CosmosDBManagementClient × List Effect :=
  match retrieveAzureAccount env with
  | (Except.error e, tr) => (Except.error e, tr)
  | (Except.ok azureAccount, tr) =>
    match azureAccount.armEndpoint with
    | none => (Except.error ArmError.failRetrieveArmEndpoint, tr)
    | some armEndpoint =>
      if armEndpoint = "" then (Except.error ArmError.failRetrieveArmEndpoint, tr)
      else
        match retrieveAzureToken env with
        | (Except.error e, tr2) => (Except.error e, tr ++ tr2)
        | (Except.ok _t, tr2) =>
          if azureResourceId = "" then
            match retrieveResourceInfofromArm env with
            | (none, tr3) => (Except.error ArmError.azureResourceNotFound, tr ++ tr2 ++ tr3)
            | (some row, tr3) =>
              (Except.ok { subscriptionId := (parsedAzureResourceId row.id).subscriptionId
                           baseUri := armEndpoint },
               tr ++ tr2 ++ tr3 ++ [Effect.newCosmosDBManagementClient])
          else
            (Except.ok { subscriptionId := (parsedAzureResourceId azureResourceId).subscriptionId
                         baseUri := armEndpoint },
             tr ++ tr2 ++ [Effect.newCosmosDBManagementClient])

/-- Modelled from the spec: the constant `PICK_MAX_ATTEMPTS` is imported from
`./constant`, a file not among the sources; the spec calls it a small positive
integer and end-to-end scenario C fixes it at 3. -/
def PICK_MAX_ATTEMPTS : Nat := 3

/-- The `.map` building quick-pick items from the listed connection strings
(appContext.ts lines 582-589): keep the connection string, build a label from
the description and account name, clear the description, pre-select index 0. -/
def connectionStringsPicksOf (cosmosDbAccountName : String)
    (css : List DatabaseAccountConnectionString) : List ConnectionStringPick :=
  css.mapIdx fun i cs =>
    { connectionString := cs.connectionString
      label := cs.description.getD "" ++ " (" ++ cosmosDbAccountName ++ ")"
      description := none
      picked := i == 0 }

/-- One step of the `while` loop of appContext.ts lines 594-604, recursing on
fuel. The loop guard is
`!connectionStringPick && picks && picks.length > 0 && attempts < PICK_MAX_ATTEMPTS`;
each iteration shows the quick pick once (`chooser attempts` is what
`showQuickPick` returns on that attempt) and increments `attempts`. The fuel
starts at `maxAttempts` with `attempts = 0`, so fuel never runs out before the
guard `attempts < maxAttempts` fails: the embedding is exact, not truncated. -/
def pickLoopGo (maxAttempts : Nat) (chooser : Nat → Option ConnectionStringPick)
    (nonempty : Bool) : Nat → Nat → Option ConnectionStringPick →
    Option ConnectionStringPick × Nat
  | 0, attempts, pick => (pick, attempts)
  | fuel + 1, attempts, pick =>
    if pick.isNone && nonempty && decide (attempts < maxAttempts) then
      pickLoopGo maxAttempts chooser nonempty fuel (attempts + 1) (chooser attempts)
    else
      (pick, attempts)

/-- The whole `while` loop: starts with no pick and `attempts = 0`; returns
the final pick and the number of times the quick pick was shown. -/
def pickLoop (maxAttempts : Nat) (chooser : Nat → Option ConnectionStringPick)
    (nonempty : Bool) : Option ConnectionStringPick × Nat :=
  pickLoopGo maxAttempts chooser nonempty maxAttempts 0 none

/-- The selection part of `retrieveConnectionStringFromArm` (appContext.ts
lines 578-610), from the `listConnectionStrings` response onward: throw
`noConnectionStringsFound` when the `connectionStrings` field is absent (JS:
an empty array is truthy and passes this check), build the picks, run the
bounded pick loop, then throw `missingConnectionString` when no pick was made
or when the chosen pick's `connectionString` is falsy (undefined or empty).
Returns the result together with the number of quick-pick invocations. -/
def retrieveConnectionStringFromArmCore (chooser : Nat → Option ConnectionStringPick)
    (cosmosDbAccountName : String)
    (connectionStrings : Option (List DatabaseAccountConnectionString)) :
    Except ArmError String × Nat :=
  match connectionStrings with
  | none => (Except.error ArmError.noConnectionStringsFound, 0)
  | some css =>
    let picks := connectionStringsPicksOf cosmosDbAccountName css
    let res := pickLoop PICK_MAX_ATTEMPTS chooser (decide (0 < picks.length))
    match res.1 with
    | none => (Except.error ArmError.missingConnectionString, res.2)
    | some pick =>
      match pick.connectionString with
      | none => (Except.error ArmError.missingConnectionString, res.2)
      | some s =>
        if s = "" then (Except.error ArmError.missingConnectionString, res.2)
        else (Except.ok s, res.2)

/-- `retrieveConnectionStringFromArm` (appContext.ts lines 558-610) end to
end: build the management client, resolve the resource id, list the connection
strings (response supplied by the environment), then run the selection. -/
def retrieveConnectionStringFromArm (env : ArmEnv)
    (chooser : Nat → Option ConnectionStringPick) (azureResourceId : String)
    (cosmosDbAccountName : String) : Except ArmError String × List Effect :=
  match createArmClient env azureResourceId with
  | (Except.error e, tr) => (Except.error e, tr)
  | (Except.ok _client, tr) =>
    match retrieveResourceId env azureResourceId with
    | (Except.error e, tr2) => (Except.error e, tr ++ tr2)
    | (Except.ok _rid, tr2) =>
      let res := retrieveConnectionStringFromArmCore chooser cosmosDbAccountName
        env.connectionStrings
      (res.1, tr ++ tr2 ++ [Effect.listConnectionStrings] ++
        List.replicate res.2 Effect.showQuickPick)

namespace AbstractArmService

/-- The selection part of `AbstractArmService.retrieveConnectionStringFromArm`
(AbstractArmService.ts lines 185-196): throw `noConnectionStringsFound` when
the field is absent (an empty array passes the check), then read
`connectionStrings[0].connectionString` with no prompting — on an empty array
the indexing yields undefined and reading `.connectionString` of it is an
unhandled JS TypeError — and throw `missingConnectionString` when the string
is falsy. -/
def retrieveConnectionStringFromArmCore
    (connectionStrings : Option (List DatabaseAccountConnectionString)) :
    Except ArmError String :=
  match connectionStrings with
  | none => Except.error ArmError.noConnectionStringsFound
  | some css =>
    match css.head? with
    | none => Except.error ArmError.jsTypeError
    | some cs =>
      match cs.connectionString with
      | none => Except.error ArmError.missingConnectionString
      | some s =>
        if s = "" then Except.error ArmError.missingConnectionString
        else Except.ok s

end AbstractArmService

/-- A live `MongoClient` data-plane connection, identified abstractly. -/
abbrev Client := Nat

/-- The `_mongoClients` map of `AppContext`: one entry per server key. -/
abbrev Registry := String → Option Client

/-- `Map.set` of the JS registry map: stores a client under a key,
overwriting any prior entry. -/
def Registry.set (st : Registry) (k : String) (c : Client) : Registry :=
  fun q => if q = k then some c else st q

/-- `Map.delete` of the JS registry map: removes the entry at a key. -/
def Registry.del (st : Registry) (k : String) : Registry :=
  fun q => if q = k then none else st q

/-- `IDatabaseInfo` of appContext.ts (lines 21-25). -/
structure IDatabaseInfo where
  name : String
  sizeOnDisk : Option Nat
  empty : Option Bool
deriving DecidableEq, Repr

/-- A `Collection` handle returned by the mongodb driver, kept abstract. -/
abbrev MongoCollection := Nat

/-- Calls made to the data-plane client by the registry operations. -/
inductive DataPlaneCall where
  | listDatabases
  | listCollections (databaseName : String)
  | dropDatabase (databaseName : String)
  | dropCollection (databaseName : String) (collectionName : String)
deriving DecidableEq, Repr

/-- Actions `disconnect` performs on the registry and the connection, in
source order. -/
inductive RegistryAction where
  | deleteEntry (server : String)
  | closeClient (c : Client)
deriving DecidableEq, Repr

namespace AppContext

/-- `AppContext.connect` (appContext.ts lines 84-94): `MongoClient.connect`
either yields a client (`outcome = some c`) or throws (`outcome = none`); on
success the client is stored under the server key (overwriting) and returned;
on failure the error is caught, logged, and `undefined` is returned — the
registry is untouched and no exception escapes (the embedding is total). -/
def connect (st : Registry) (server : String) (outcome : Option Client) :
    Registry × Option Client :=
  match outcome with
  | some c => (Registry.set st server c, some c)
  | none => (st, none)

/-- `AppContext.hasConnection` (appContext.ts lines 96-98). -/
def hasConnection (st : Registry) (server : String) : Bool :=
  (st server).isSome

/-- `AppContext.disconnect` (appContext.ts lines 297-305): when the key is
absent, resolve immediately (no error, no action); when present, read the
client, delete the map entry, and only then close the client — the action
list records that order. -/
def disconnect (st : Registry) (server : String) : Registry × List RegistryAction :=
  match st server with
  | none => (st, [])
  | some c => (Registry.del st server, [RegistryAction.deleteEntry server,
      RegistryAction.closeClient c])

/-- `AppContext.listDatabases` (appContext.ts lines 100-111): with no entry
for the key, return `[]` without touching the client; otherwise perform the
data-plane call, whose result the parameter `resultDatabases` supplies. -/
def listDatabases (st : Registry) (server : String)
    (resultDatabases : List IDatabaseInfo) : List IDatabaseInfo × List DataPlaneCall :=
  if hasConnection st server then (resultDatabases, [DataPlaneCall.listDatabases])
  else ([], [])

/-- `AppContext.listCollections` (appContext.ts lines 113-118). -/
def listCollections (st : Registry) (server : String) (databaseName : String)
    (resultCollections : List MongoCollection) :
    List MongoCollection × List DataPlaneCall :=
  if hasConnection st server then
    (resultCollections, [DataPlaneCall.listCollections databaseName])
  else ([], [])

/-- `AppContext.removeDatabase` (appContext.ts lines 120-125): `false` when
the key is absent, otherwise the data-plane `dropDatabase` result. -/
def removeDatabase (st : Registry) (server : String) (databaseName : String)
    (dropResult : Bool) : Bool × List DataPlaneCall :=
  if hasConnection st server then (dropResult, [DataPlaneCall.dropDatabase databaseName])
  else (false, [])

/-- `AppContext.removeCollection` (appContext.ts lines 127-132). -/
def removeCollection (st : Registry) (server : String) (databaseName : String)
    (collectionName : String) (dropResult : Bool) : Bool × List DataPlaneCall :=
  if hasConnection st server then
    (dropResult, [DataPlaneCall.dropCollection databaseName collectionName])
  else (false, [])

end AppContext

/-- The public operations of `AppContext` that can run against the registry,
used to state that nothing but `connect`/`disconnect` on a key alters its
entry. `connect` carries the outcome of the underlying open; the read-only
operations carry only their arguments since their data-plane results do not
touch the registry. -/
inductive Op where
  | connect (server : String) (outcome : Option Client)
  | disconnect (server : String)
  | hasConnection (server : String)
  | listDatabases (server : String)
  | listCollections (server : String) (databaseName : String)
  | removeDatabase (server : String) (databaseName : String)
  | removeCollection (server : String) (databaseName : String) (collectionName : String)
  | insertDocuments (server : String)
deriving DecidableEq, Repr

/-- Whether an operation is a `connect` or `disconnect` on the given key. -/
def Op.touches (op : Op) (server : String) : Bool :=
  match op with
  | Op.connect s _ => s == server
  | Op.disconnect s => s == server
  | _ => false

/-- Registry after one operation: only `connect` (on success) and
`disconnect` write to `_mongoClients`; every other method of the source class
only reads it (`has`/`get`). -/
def stepRegistry (st : Registry) (op : Op) : Registry :=
  match op with
  | Op.connect server outcome => (AppContext.connect st server outcome).1
  | Op.disconnect server => (AppContext.disconnect st server).1
  | _ => st

/-- Registry after a sequence of operations. -/
def runOps (st : Registry) (ops : List Op) : Registry :=
  ops.foldl stepRegistry st

/-- A pick that is already made ends the loop at once, for any fuel. -/
theorem pickLoopGo_some (maxAttempts : Nat) (chooser : Nat → Option ConnectionStringPick)
    (nonempty : Bool) (fuel attempts : Nat) (p : ConnectionStringPick) :
    pickLoopGo maxAttempts chooser nonempty fuel attempts (some p) = (some p, attempts) := by
  cases fuel with
  | zero => rfl
  | succ fuel => simp [pickLoopGo]

/-- With an empty candidate list the loop guard is false and the loop never
runs, for any fuel. -/
theorem pickLoopGo_not_nonempty (maxAttempts : Nat)
    (chooser : Nat → Option ConnectionStringPick) (fuel attempts : Nat)
    (pick : Option ConnectionStringPick) :
    pickLoopGo maxAttempts chooser false fuel attempts pick = (pick, attempts) := by
  cases fuel with
  | zero => rfl
  | succ fuel => simp [pickLoopGo]

/-- When every quick-pick invocation is dismissed, the loop ends with no pick
after at most `fuel` further iterations. -/
theorem pickLoopGo_all_dismissed (maxAttempts : Nat)
    (chooser : Nat → Option ConnectionStringPick) (nonempty : Bool)
    (h : ∀ n, chooser n = none) : ∀ (fuel attempts : Nat),
    (pickLoopGo maxAttempts chooser nonempty fuel attempts none).1 = none ∧
    (pickLoopGo maxAttempts chooser nonempty fuel attempts none).2 ≤ attempts + fuel := by
  intro fuel
  induction fuel with
  | zero => intro attempts; simp [pickLoopGo]
  | succ fuel ih =>
    intro attempts
    by_cases hc : (nonempty && decide (attempts < maxAttempts)) = true
    · have hstep : pickLoopGo maxAttempts chooser nonempty (fuel + 1) attempts none =
          pickLoopGo maxAttempts chooser nonempty fuel (attempts + 1) none := by
        simp [pickLoopGo, hc, h attempts]
      rw [hstep]
      refine ⟨(ih (attempts + 1)).1, le_trans (ih (attempts + 1)).2 (by omega)⟩
    · have hstop : pickLoopGo maxAttempts chooser nonempty (fuel + 1) attempts none =
          (none, attempts) := by
        simp only [pickLoopGo, Option.isNone_none, Bool.true_and]
        rw [if_neg (by simpa using hc)]
      rw [hstop]
      exact ⟨rfl, by omega⟩

/-- When the first quick-pick invocation selects an item, the loop ends after
exactly one invocation, provided the bound is positive. -/
theorem pickLoop_first_selected (maxAttempts : Nat) (hm : 0 < maxAttempts)
    (chooser : Nat → Option ConnectionStringPick) (p : ConnectionStringPick)
    (h0 : chooser 0 = some p) :
    pickLoop maxAttempts chooser true = (some p, 1) := by
  unfold pickLoop
  cases maxAttempts with
  | zero => omega
  | succ m =>
    have : pickLoopGo (m + 1) chooser true (m + 1) 0 none =
        pickLoopGo (m + 1) chooser true m 1 (some p) := by
      simp [pickLoopGo, h0]
    rw [this, pickLoopGo_some]

/-- Only a `connect`/`disconnect` on a key can change that key's entry: any
operation not touching the key leaves its registry entry as it was. -/
theorem stepRegistry_untouched (st : Registry) (op : Op) (server : String)
    (h : Op.touches op server = false) : stepRegistry st op server = st server := by
  cases op with
  | connect s o =>
    have hs : ¬(server = s) := by
      simp [Op.touches] at h
      exact fun heq => h heq.symm
    cases o with
    | none => rfl
    | some c =>
      show Registry.set st s c server = st server
      simp [Registry.set, hs]
  | disconnect s =>
    have hs : ¬(server = s) := by
      simp [Op.touches] at h
      exact fun heq => h heq.symm
    show (AppContext.disconnect st s).1 server = st server
    unfold AppContext.disconnect
    cases hst : st s with
    | none => rfl
    | some c => simp [Registry.del, hs]
  | hasConnection s => rfl
  | listDatabases s => rfl
  | listCollections s d => rfl
  | removeDatabase s d => rfl
  | removeCollection s d c => rfl
  | insertDocuments s => rfl

/-- A whole sequence of operations, none touching a key, leaves that key's
registry entry as it was. -/
theorem runOps_untouched (server : String) : ∀ (ops : List Op) (st : Registry),
    (∀ op ∈ ops, Op.touches op server = false) → runOps st ops server = st server := by
  intro ops
  induction ops with
  | nil => intro st _; rfl
  | cons op rest ih =>
    intro st h
    have h1 : Op.touches op server = false := h op (List.mem_cons_self op rest)
    have h2 : ∀ q ∈ rest, Op.touches q server = false :=
      fun q hq => h q (List.mem_cons_of_mem op hq)
    have hstep : runOps st (op :: rest) = runOps (stepRegistry st op) rest := rfl
    rw [hstep, ih (stepRegistry st op) h2, stepRegistry_untouched st op server h1]

/-- Claim C1 (counterexample): with exactly one connection-string candidate,
`retrieveConnectionStringFromArm` of appContext.ts does NOT return that
candidate without prompting — when the chooser is dismissed every time it
shows the quick pick 3 times (so the prompt is shown) and fails instead of
returning the sole candidate's string. -/
theorem c1_counterexample :
    (retrieveConnectionStringFromArmCore (fun _ => none) "acct"
      (some [{ description := some "Primary", connectionString := some "cs1" }])).1 ≠
      Except.ok "cs1" ∧
    (retrieveConnectionStringFromArmCore (fun _ => none) "acct"
      (some [{ description := some "Primary", connectionString := some "cs1" }])).2 = 3 := by
  decide

/-- Claim C1 (amended): with exactly one candidate, the `AbstractArmService`
variant returns that candidate's connection string without ever invoking the
chooser; the appContext variant still invokes the chooser — it returns the
candidate's string after one invocation when the chooser selects it, and
fails with `missingConnectionString` when the chooser is always dismissed. -/
theorem c1_amended (cs : DatabaseAccountConnectionString) (s : String)
    (p : ConnectionStringPick) (cosmosDbAccountName : String)
    (hcs : cs.connectionString = some s) (hs : s ≠ "") (hp : p.connectionString = some s) :
    AbstractArmService.retrieveConnectionStringFromArmCore (some [cs]) = Except.ok s ∧
    retrieveConnectionStringFromArmCore (fun _ => some p) cosmosDbAccountName (some [cs]) =
      (Except.ok s, 1) ∧
    (retrieveConnectionStringFromArmCore (fun _ => none) cosmosDbAccountName (some [cs])).1 =
      Except.error ArmError.missingConnectionString := by
  refine ⟨?_, ?_, ?_⟩
  · simp [AbstractArmService.retrieveConnectionStringFromArmCore, hcs, hs]
  · have hne : decide (0 < (connectionStringsPicksOf cosmosDbAccountName [cs]).length) = true := by
      simp [connectionStringsPicksOf]
    simp only [retrieveConnectionStringFromArmCore, hne]
    rw [pickLoop_first_selected PICK_MAX_ATTEMPTS (by decide) _ p rfl]
    simp [hp, hs]
  · have h := pickLoopGo_all_dismissed PICK_MAX_ATTEMPTS (fun _ => none)
      (decide (0 < (connectionStringsPicksOf cosmosDbAccountName [cs]).length))
      (fun _ => rfl) PICK_MAX_ATTEMPTS 0
    simp only [retrieveConnectionStringFromArmCore, pickLoop] at h ⊢
    rw [h.1]

/-- Witness for `c1_amended` at a concrete candidate, string and pick. -/
theorem c1_amended_witness :
    ({ description := some "Primary", connectionString := some "cs1" } :
        DatabaseAccountConnectionString).connectionString = some "cs1" ∧
    "cs1" ≠ "" ∧
    ({ connectionString := some "cs1", label := "Primary (acct)", description := none, picked := true } : ConnectionStringPick).connectionString = some "cs1" ∧
    (AbstractArmService.retrieveConnectionStringFromArmCore
      (some [{ description := some "Primary", connectionString := some "cs1" }]) =
        Except.ok "cs1" ∧
    retrieveConnectionStringFromArmCore
      (fun _ => some { connectionString := some "cs1", label := "Primary (acct)", description := none, picked := true }) "acct"
      (some [{ description := some "Primary", connectionString := some "cs1" }]) =
        (Except.ok "cs1", 1) ∧
    (retrieveConnectionStringFromArmCore (fun _ => none) "acct"
      (some [{ description := some "Primary", connectionString := some "cs1" }])).1 =
        Except.error ArmError.missingConnectionString) :=
  ⟨rfl, by decide, rfl,
    c1_amended { description := some "Primary", connectionString := some "cs1" } "cs1"
      { connectionString := some "cs1", label := "Primary (acct)", description := none, picked := true }
      "acct" rfl (by decide) rfl⟩

/-- Claim C2 (confirmed): with any candidate list (in particular one with
more than one candidate) and a chooser dismissed on every invocation, the
selection invokes the chooser at most `PICK_MAX_ATTEMPTS` times — the loop is
a total function, so it terminates — and fails with
`missingConnectionString`. -/
theorem c2_bounded_attempts (chooser : Nat → Option ConnectionStringPick)
    (cosmosDbAccountName : String) (css : List DatabaseAccountConnectionString)
    (hch : ∀ n, chooser n = none) (_hlen : 1 < css.length) :
    (retrieveConnectionStringFromArmCore chooser cosmosDbAccountName (some css)).1 =
      Except.error ArmError.missingConnectionString ∧
    (retrieveConnectionStringFromArmCore chooser cosmosDbAccountName (some css)).2 ≤
      PICK_MAX_ATTEMPTS := by
  have h := pickLoopGo_all_dismissed PICK_MAX_ATTEMPTS chooser
    (decide (0 < (connectionStringsPicksOf cosmosDbAccountName css).length)) hch
    PICK_MAX_ATTEMPTS 0
  simp only [retrieveConnectionStringFromArmCore, pickLoop] at h ⊢
  rw [h.1]
  exact ⟨rfl, by simpa using h.2⟩

/-- Witness for `c2_bounded_attempts` at a two-candidate listing and the
always-dismissing chooser. -/
theorem c2_bounded_attempts_witness :
    (∀ (n : Nat), (fun (_ : Nat) => (none : Option ConnectionStringPick)) n = none) ∧
    1 < ([{ description := some "Primary", connectionString := some "cs1" },
          { description := some "Secondary", connectionString := some "cs2" }] :
          List DatabaseAccountConnectionString).length ∧
    ((retrieveConnectionStringFromArmCore (fun _ => none) "acct"
      (some [{ description := some "Primary", connectionString := some "cs1" },
             { description := some "Secondary", connectionString := some "cs2" }])).1 =
      Except.error ArmError.missingConnectionString ∧
    (retrieveConnectionStringFromArmCore (fun _ => none) "acct"
      (some [{ description := some "Primary", connectionString := some "cs1" },
             { description := some "Secondary", connectionString := some "cs2" }])).2 ≤
      PICK_MAX_ATTEMPTS) :=
  ⟨fun _ => rfl, by decide,
    c2_bounded_attempts (fun _ => none) "acct"
      [{ description := some "Primary", connectionString := some "cs1" },
       { description := some "Secondary", connectionString := some "cs2" }]
      (fun _ => rfl) (by decide)⟩

/-- Claim C3 (counterexample): on a present-but-empty connection-string list,
the appContext selection fails with `missingConnectionString`, not
`noConnectionStringsFound` (a JS empty array is truthy, so the absence check
does not catch it), and the `AbstractArmService` variant hits an unhandled
TypeError. -/
theorem c3_counterexample :
    (retrieveConnectionStringFromArmCore (fun _ => none) "acct" (some [])).1 =
      Except.error ArmError.missingConnectionString ∧
    (retrieveConnectionStringFromArmCore (fun _ => none) "acct" (some [])).1 ≠
      Except.error ArmError.noConnectionStringsFound ∧
    AbstractArmService.retrieveConnectionStringFromArmCore (some []) =
      Except.error ArmError.jsTypeError := by
  decide

/-- Claim C3 (amended): an absent connection-string list fails with
`noConnectionStringsFound` in both variants; an empty list instead fails with
`missingConnectionString` in the appContext variant (without showing the
quick pick) and with an unhandled TypeError in the `AbstractArmService`
variant. -/
theorem c3_amended (chooser : Nat → Option ConnectionStringPick)
    (cosmosDbAccountName : String) :
    retrieveConnectionStringFromArmCore chooser cosmosDbAccountName none =
      (Except.error ArmError.noConnectionStringsFound, 0) ∧
    retrieveConnectionStringFromArmCore chooser cosmosDbAccountName (some []) =
      (Except.error ArmError.missingConnectionString, 0) ∧
    AbstractArmService.retrieveConnectionStringFromArmCore none =
      Except.error ArmError.noConnectionStringsFound ∧
    AbstractArmService.retrieveConnectionStringFromArmCore (some []) =
      Except.error ArmError.jsTypeError := by
  refine ⟨rfl, ?_, rfl, rfl⟩
  have hnil : connectionStringsPicksOf cosmosDbAccountName
      ([] : List DatabaseAccountConnectionString) = [] := rfl
  simp only [retrieveConnectionStringFromArmCore, pickLoop, hnil]
  simp [pickLoopGo_not_nonempty]

/-- Claim C4: for paths with at least 9 slash-separated segments the parser
extracts the segments at indices 2, 4 and 8 (all present); but on the
3-segment path `a/b/c` the parser does NOT fail: it silently returns a record
with `resourceGroup` and `dbAccountName` undefined (and `subscriptionId` the
last segment), as the source's `TODO Add error handling` comment admits — no
`MalformedResourceId` error exists in the code. -/
theorem c4_parse (path : String) (h : 9 ≤ (jsSplit path '/').length) :
    (parsedAzureResourceId path).subscriptionId = (jsSplit path '/').get? 2 ∧
    (parsedAzureResourceId path).resourceGroup = (jsSplit path '/').get? 4 ∧
    (parsedAzureResourceId path).dbAccountName = (jsSplit path '/').get? 8 ∧
    (parsedAzureResourceId path).subscriptionId.isSome = true ∧
    (parsedAzureResourceId path).resourceGroup.isSome = true ∧
    (parsedAzureResourceId path).dbAccountName.isSome = true ∧
    parsedAzureResourceId "a/b/c" =
      { subscriptionId := some "c", resourceGroup := none, dbAccountName := none } := by
  refine ⟨rfl, rfl, rfl, ?_, ?_, ?_, by decide⟩
  all_goals
    simp only [parsedAzureResourceId]
    rw [List.get?_eq_get (by omega)]
    rfl

/-- Witness for `c4_parse` at a concrete 9-segment ARM path. -/
theorem c4_parse_witness :
    9 ≤ (jsSplit "/subscriptions/sub1/resourceGroups/rg1/providers/prov/databaseAccounts/acct1" '/').length ∧
    ((parsedAzureResourceId "/subscriptions/sub1/resourceGroups/rg1/providers/prov/databaseAccounts/acct1").subscriptionId =
      (jsSplit "/subscriptions/sub1/resourceGroups/rg1/providers/prov/databaseAccounts/acct1" '/').get? 2 ∧
    (parsedAzureResourceId "/subscriptions/sub1/resourceGroups/rg1/providers/prov/databaseAccounts/acct1").resourceGroup =
      (jsSplit "/subscriptions/sub1/resourceGroups/rg1/providers/prov/databaseAccounts/acct1" '/').get? 4 ∧
    (parsedAzureResourceId "/subscriptions/sub1/resourceGroups/rg1/providers/prov/databaseAccounts/acct1").dbAccountName =
      (jsSplit "/subscriptions/sub1/resourceGroups/rg1/providers/prov/databaseAccounts/acct1" '/').get? 8 ∧
    (parsedAzureResourceId "/subscriptions/sub1/resourceGroups/rg1/providers/prov/databaseAccounts/acct1").subscriptionId.isSome = true ∧
    (parsedAzureResourceId "/subscriptions/sub1/resourceGroups/rg1/providers/prov/databaseAccounts/acct1").resourceGroup.isSome = true ∧
    (parsedAzureResourceId "/subscriptions/sub1/resourceGroups/rg1/providers/prov/databaseAccounts/acct1").dbAccountName.isSome = true ∧
    parsedAzureResourceId "a/b/c" =
      { subscriptionId := some "c", resourceGroup := none, dbAccountName := none }) :=
  ⟨by decide,
    c4_parse "/subscriptions/sub1/resourceGroups/rg1/providers/prov/databaseAccounts/acct1"
      (by decide)⟩

/-- Claim C5 (confirmed): when the underlying data-plane open fails,
`AppContext.connect` returns normally with `undefined` (the embedding is a
total function: the source catches the error, so no exception escapes), the
registry is returned unchanged, and `hasConnection` for the key stays false. -/
theorem c5_connect_failure (st : Registry) (server : String) :
    AppContext.connect st server none = (st, none) ∧
    (AppContext.hasConnection st server = false →
      AppContext.hasConnection (AppContext.connect st server none).1 server = false) :=
  ⟨rfl, fun h => h⟩

/-- Witness for `c5_connect_failure` at the empty registry. -/
theorem c5_connect_failure_witness :
    AppContext.hasConnection (fun _ => none) "server1" = false ∧
    (AppContext.connect (fun _ => none) "server1" none = ((fun _ => none : Registry), none) ∧
    (AppContext.hasConnection (fun _ => none : Registry) "server1" = false →
      AppContext.hasConnection (AppContext.connect (fun _ => none) "server1" none).1
        "server1" = false)) :=
  ⟨rfl, c5_connect_failure (fun _ => none) "server1"⟩

/-- Claim C6 (confirmed): a successful `connect(id, s)` returns the new
client, stores exactly it under the key (overwriting any prior entry), makes
`hasConnection` true, and the entry stays that client across any sequence of
registry operations that contains no `connect` or `disconnect` on that key. -/
theorem c6_connect_success (st : Registry) (server : String) (c : Client) (ops : List Op)
    (hops : ∀ op ∈ ops, Op.touches op server = false) :
    (AppContext.connect st server (some c)).2 = some c ∧
    (AppContext.connect st server (some c)).1 server = some c ∧
    AppContext.hasConnection (AppContext.connect st server (some c)).1 server = true ∧
    runOps (AppContext.connect st server (some c)).1 ops server = some c := by
  have hset : (AppContext.connect st server (some c)).1 server = some c := by
    show Registry.set st server c server = some c
    simp [Registry.set]
  refine ⟨rfl, hset, ?_, ?_⟩
  · simp [AppContext.hasConnection, hset]
  · rw [runOps_untouched server ops _ hops, hset]

/-- Witness for `c6_connect_success`: connect on one key, then operations on
another key and reads of this key. -/
theorem c6_connect_success_witness :
    (∀ op ∈ [Op.connect "other" (some 1), Op.disconnect "other",
        Op.listDatabases "server1", Op.insertDocuments "server1"],
      Op.touches op "server1" = false) ∧
    ((AppContext.connect (fun _ => none) "server1" (some 7)).2 = some 7 ∧
    (AppContext.connect (fun _ => none) "server1" (some 7)).1 "server1" = some 7 ∧
    AppContext.hasConnection (AppContext.connect (fun _ => none) "server1" (some 7)).1
      "server1" = true ∧
    runOps (AppContext.connect (fun _ => none) "server1" (some 7)).1
      [Op.connect "other" (some 1), Op.disconnect "other",
        Op.listDatabases "server1", Op.insertDocuments "server1"] "server1" = some 7) :=
  ⟨by decide,
    c6_connect_success (fun _ => none) "server1" 7
      [Op.connect "other" (some 1), Op.disconnect "other",
        Op.listDatabases "server1", Op.insertDocuments "server1"] (by decide)⟩

/-- Claim C7 (confirmed): with a non-empty resource id, `retrieveResourceId`
returns the supplied id unchanged with NO remote call at all (no token
acquisition, no resource-graph query), and `createArmClient` never performs a
resource-graph query either: the locator runs only when no id is supplied. -/
theorem c7_supplied_id_wins (env : ArmEnv) (azureResourceId : String)
    (h : azureResourceId ≠ "") :
    retrieveResourceId env azureResourceId = (Except.ok azureResourceId, []) ∧
    Effect.resourceGraphQuery ∉ (createArmClient env azureResourceId).2 := by
  constructor
  · simp [retrieveResourceId, h]
  · rcases env with ⟨acc, tok, rows, css⟩
    cases acc with
    | none =>
      simp [createArmClient, retrieveAzureAccount]
    | some a =>
      cases ha : a.armEndpoint with
      | none =>
        simp [createArmClient, retrieveAzureAccount, ha]
      | some ep =>
        by_cases hep : ep = ""
        · simp [createArmClient, retrieveAzureAccount, ha, hep]
        · cases tok with
          | none =>
            simp [createArmClient, retrieveAzureAccount, retrieveAzureToken, ha, hep]
          | some t =>
            simp [createArmClient, retrieveAzureAccount, retrieveAzureToken, ha, hep, h]

/-- Witness for `c7_supplied_id_wins` at a concrete environment and id. -/
theorem c7_supplied_id_wins_witness :
    ("/subscriptions/sub1/rg/x/y/z/w/v/acct" ≠ "") ∧
    (retrieveResourceId
      { account := some { armEndpoint := some "endpoint1" },
        securityToken := some { token := "tok", tokenType := none },
        locatorRows := [{ subscriptionId := "sub1", id := "rid" }],
        connectionStrings := none } "/subscriptions/sub1/rg/x/y/z/w/v/acct" =
      (Except.ok "/subscriptions/sub1/rg/x/y/z/w/v/acct", []) ∧
    Effect.resourceGraphQuery ∉
      (createArmClient
        { account := some { armEndpoint := some "endpoint1" },
          securityToken := some { token := "tok", tokenType := none },
          locatorRows := [{ subscriptionId := "sub1", id := "rid" }],
          connectionStrings := none } "/subscriptions/sub1/rg/x/y/z/w/v/acct").2) :=
  ⟨by decide,
    c7_supplied_id_wins
      { account := some { armEndpoint := some "endpoint1" },
        securityToken := some { token := "tok", tokenType := none },
        locatorRows := [{ subscriptionId := "sub1", id := "rid" }],
        connectionStrings := none } "/subscriptions/sub1/rg/x/y/z/w/v/acct" (by decide)⟩

/-- Claim C8 (confirmed): when no resource id is supplied and the
resource-graph query returns zero rows, the connection-string pipeline fails
with `azureResourceNotFound` and no `CosmosDBManagementClient` is ever
constructed in that run. -/
theorem c8_zero_rows (env : ArmEnv) (chooser : Nat → Option ConnectionStringPick)
    (cosmosDbAccountName : String) (acc : Account) (ep : String) (t : Token)
    (hacc : env.account = some acc) (hep : acc.armEndpoint = some ep) (hep2 : ep ≠ "")
    (htok : env.securityToken = some t) (hrows : env.locatorRows = []) :
    (retrieveConnectionStringFromArm env chooser "" cosmosDbAccountName).1 =
      Except.error ArmError.azureResourceNotFound ∧
    Effect.newCosmosDBManagementClient ∉
      (retrieveConnectionStringFromArm env chooser "" cosmosDbAccountName).2 := by
  have hclient : createArmClient env "" =
      (Except.error ArmError.azureResourceNotFound,
        [Effect.getAllAccounts, Effect.getAllAccounts, Effect.getSecurityToken,
          Effect.resourceGraphQuery]) := by
    simp [createArmClient, retrieveAzureAccount, retrieveAzureToken,
      retrieveResourceInfofromArm, hacc, hep, hep2, htok, hrows]
  constructor
  · simp [retrieveConnectionStringFromArm, hclient]
  · simp [retrieveConnectionStringFromArm, hclient]

/-- Witness for `c8_zero_rows` at a concrete environment with zero locator
rows. -/
theorem c8_zero_rows_witness :
    ({ account := some { armEndpoint := some "endpoint1" },
        securityToken := some { token := "tok", tokenType := none },
        locatorRows := [], connectionStrings := none } : ArmEnv).account =
      some { armEndpoint := some "endpoint1" } ∧
    ({ armEndpoint := some "endpoint1" } : Account).armEndpoint = some "endpoint1" ∧
    ("endpoint1" ≠ "") ∧
    ({ account := some { armEndpoint := some "endpoint1" },
        securityToken := some { token := "tok", tokenType := none },
        locatorRows := [], connectionStrings := none } : ArmEnv).securityToken =
      some { token := "tok", tokenType := none } ∧
    ({ account := some { armEndpoint := some "endpoint1" },
        securityToken := some { token := "tok", tokenType := none },
        locatorRows := [], connectionStrings := none } : ArmEnv).locatorRows = [] ∧
    ((retrieveConnectionStringFromArm
      { account := some { armEndpoint := some "endpoint1" },
        securityToken := some { token := "tok", tokenType := none },
        locatorRows := [], connectionStrings := none } (fun _ => none) "" "acct").1 =
      Except.error ArmError.azureResourceNotFound ∧
    Effect.newCosmosDBManagementClient ∉
      (retrieveConnectionStringFromArm
        { account := some { armEndpoint := some "endpoint1" },
          securityToken := some { token := "tok", tokenType := none },
          locatorRows := [], connectionStrings := none } (fun _ => none) "" "acct").2) :=
  ⟨rfl, rfl, by decide, rfl, rfl,
    c8_zero_rows
      { account := some { armEndpoint := some "endpoint1" },
        securityToken := some { token := "tok", tokenType := none },
        locatorRows := [], connectionStrings := none } (fun _ => none) "acct"
      { armEndpoint := some "endpoint1" } "endpoint1" { token := "tok", tokenType := none }
      rfl rfl (by decide) rfl rfl⟩

/-- Claim C9 (confirmed): `disconnect` on an absent key is a no-op that
returns normally (the source resolves immediately; the embedding returns the
unchanged registry and performs no action); on a present key it removes the
entry and then closes the client, with the removal strictly before the close
in the action order, so the registry never holds a closed connection. -/
theorem c9_disconnect (st : Registry) (server : String) :
    (st server = none → AppContext.disconnect st server = (st, [])) ∧
    (∀ c, st server = some c →
      (AppContext.disconnect st server).1 server = none ∧
      (AppContext.disconnect st server).2 =
        [RegistryAction.deleteEntry server, RegistryAction.closeClient c]) := by
  constructor
  · intro h
    simp [AppContext.disconnect, h]
  · intro c h
    simp [AppContext.disconnect, h, Registry.del]

/-- Witness for `c9_disconnect`: an absent key on the empty registry and a
present key on a one-entry registry. -/
theorem c9_disconnect_witness :
    (((fun _ => none : Registry) "server1" = none) ∧
      AppContext.disconnect (fun _ => none) "server1" = ((fun _ => none : Registry), [])) ∧
    ((Registry.set (fun _ => none) "server1" 7 "server1" = some 7) ∧
      ((AppContext.disconnect (Registry.set (fun _ => none) "server1" 7) "server1").1
        "server1" = none ∧
      (AppContext.disconnect (Registry.set (fun _ => none) "server1" 7) "server1").2 =
        [RegistryAction.deleteEntry "server1", RegistryAction.closeClient 7])) :=
  ⟨⟨rfl, (c9_disconnect (fun _ => none) "server1").1 rfl⟩,
    ⟨by decide,
      (c9_disconnect (Registry.set (fun _ => none) "server1" 7) "server1").2 7 (by decide)⟩⟩

/-- Claim C10 (confirmed): with no registry entry for the key,
`listDatabases` and `listCollections` return the empty list, `removeDatabase`
and `removeCollection` return false, none of them performs any data-plane
call, and none of them changes the registry. -/
theorem c10_absent_key (st : Registry) (server : String) (databaseName : String)
    (collectionName : String) (resultDatabases : List IDatabaseInfo)
    (resultCollections : List MongoCollection) (dropDbResult dropCollResult : Bool)
    (h : st server = none) :
    AppContext.listDatabases st server resultDatabases = ([], []) ∧
    AppContext.listCollections st server databaseName resultCollections = ([], []) ∧
    AppContext.removeDatabase st server databaseName dropDbResult = (false, []) ∧
    AppContext.removeCollection st server databaseName collectionName dropCollResult =
      (false, []) ∧
    stepRegistry st (Op.listDatabases server) = st ∧
    stepRegistry st (Op.listCollections server databaseName) = st ∧
    stepRegistry st (Op.removeDatabase server databaseName) = st ∧
    stepRegistry st (Op.removeCollection server databaseName collectionName) = st := by
  have hc : AppContext.hasConnection st server = false := by
    simp [AppContext.hasConnection, h]
  refine ⟨?_, ?_, ?_, ?_, rfl, rfl, rfl, rfl⟩ <;>
    simp [AppContext.listDatabases, AppContext.listCollections,
      AppContext.removeDatabase, AppContext.removeCollection, hc]

/-- Witness for `c10_absent_key` at the empty registry. -/
theorem c10_absent_key_witness :
    ((fun _ => none : Registry) "server1" = none) ∧
    (AppContext.listDatabases (fun _ => none) "server1"
      [{ name := "db", sizeOnDisk := none, empty := none }] = ([], []) ∧
    AppContext.listCollections (fun _ => none) "server1" "db" [3] = ([], []) ∧
    AppContext.removeDatabase (fun _ => none) "server1" "db" true = (false, []) ∧
    AppContext.removeCollection (fun _ => none) "server1" "db" "coll" true = (false, []) ∧
    stepRegistry (fun _ => none) (Op.listDatabases "server1") = (fun _ => none : Registry) ∧
    stepRegistry (fun _ => none) (Op.listCollections "server1" "db") =
      (fun _ => none : Registry) ∧
    stepRegistry (fun _ => none) (Op.removeDatabase "server1" "db") =
      (fun _ => none : Registry) ∧
    stepRegistry (fun _ => none) (Op.removeCollection "server1" "db" "coll") =
      (fun _ => none : Registry)) :=
  ⟨rfl,
    c10_absent_key (fun _ => none) "server1" "db" "coll"
      [{ name := "db", sizeOnDisk := none, empty := none }] [3] true true rfl⟩
